import Mathlib

/-!
Verification development for the PrayerAccountabilityApp repository.

Part 1 — Streak calculator (SQL migration `part_007`):
  * `calculate_user_streak` embeds the PL/pgSQL function of the same name.
    It consumes the list of a user's completion days `ORDER BY day DESC`
    (days are modelled as integers, one unit = one calendar day).
  * `trigger_update_streak` / `update_all_streaks` are embedded as the
    state transition `applyOp` on a per-user `Profile`
    (stored counters plus the completion-day history).

Part 2 — Adhan notification scheduler (`src/notifications/adhanScheduler.ts`):
  * instants are modelled as integers (minutes); `dayjs.isAfter` is strict.
  * the device notification store is a list of scheduled notifications;
    `cancelAllScheduledNotificationsAsync` clears it entirely.

Part 3 — Buddy links (`sendInvite` in the buddy screen plus the
  `buddy_links` table of `init_schema.sql` with its UNIQUE(user_a, user_b)
  constraint).
-/

namespace PrayerApp

/-! ### Part 1 — streak calculator -/

/-- Loop state of `calculate_user_streak`:
`current_count`, `longest_count`, `temp_count`, `prev_date`, `first_iteration`. -/
structure StreakSt where
  current : Nat
  longest : Nat
  temp : Nat
  prev : Int
  first : Bool
deriving Repr, DecidableEq

/-- One iteration of the `FOR completion_date IN ... ORDER BY day DESC` loop of
`calculate_user_streak`.  `maxDay` is the value of the subquery
`SELECT MAX(day) FROM prayer_completions WHERE user_id = user_id_param`,
which is constant during the loop (the table does not change). -/
def streakStep (maxDay : Int) (st : StreakSt) (d : Int) : StreakSt :=
  if st.first then
    { current := 1, longest := st.longest, temp := 1, prev := d, first := false }
  else if d = st.prev - 1 then
    { st with current := st.current + 1, temp := st.temp + 1, prev := d }
  else
    { current := if st.prev ≠ maxDay then 0 else st.current
      longest := if st.temp > st.longest then st.temp else st.longest
      temp := 1
      prev := d
      first := false }

/-- Embedding of the PL/pgSQL function `calculate_user_streak`.
`days` is the list of the user's completion days sorted strictly descending
(the query `SELECT day ... ORDER BY day DESC` over a UNIQUE(user_id, day)
table).  Returns `(current_streak, longest_streak)`. -/
def calculate_user_streak (days : List Int) : Nat × Nat :=
  let maxDay := days.headD 0
  let st := days.foldl (streakStep maxDay)
    { current := 0, longest := 0, temp := 0, prev := 0, first := true }
  let longest := if st.temp > st.longest then st.temp else st.longest
  if st.first then (0, 0) else (st.current, longest)

/-- Per-user stored state: the `prayer_completions` history (days sorted
descending, mirroring the table keyed by UNIQUE(user_id, day)) and the
denormalized `profiles.current_streak` / `profiles.longest_streak` columns. -/
structure Profile where
  history : List Int
  current : Nat
  longest : Nat
deriving Repr, DecidableEq

/-- Insert a day into a descending sorted list (a row insert into
`prayer_completions`); keeps the list sorted and duplicate-free. -/
def insertDay (d : Int) : List Int → List Int
  | [] => [d]
  | x :: xs => if d > x then d :: x :: xs else if d = x then x :: xs else x :: insertDay d xs

/-- Delete a day from the history (a row delete from `prayer_completions`). -/
def removeDay (d : Int) (days : List Int) : List Int :=
  days.filter (fun x => x ≠ d)

/-- A write against `prayer_completions` for one user, or the bulk
`update_all_streaks` pass.  `upd` is an UPDATE that leaves the day set
unchanged (e.g. touching `completed_at`). -/
inductive CompletionOp
  | ins (d : Int)
  | upd
  | del (d : Int)
  | bulk
deriving Repr, DecidableEq

/-- Embedding of the row trigger `trigger_update_streak` (AFTER INSERT OR
UPDATE OR DELETE ON prayer_completions) together with the row write that
fires it, and of `update_all_streaks` for the `bulk` case.

INSERT and UPDATE write
  `current_streak = GREATEST(current_streak, computed)` and
  `longest_streak = GREATEST(longest_streak, computed)`;
DELETE writes `current_streak = computed` directly and
  `longest_streak = GREATEST(longest_streak, computed)`;
`update_all_streaks` uses GREATEST for both columns.

An INSERT of an already-present day violates UNIQUE(user_id, day) and a
DELETE of an absent day touches no row, so in both cases no trigger fires
and the state is unchanged. -/
def applyOp (p : Profile) : CompletionOp → Profile
  | .ins d =>
    if d ∈ p.history then p
    else
      let h := insertDay d p.history
      let r := calculate_user_streak h
      { history := h, current := max p.current r.1, longest := max p.longest r.2 }
  | .upd =>
    let r := calculate_user_streak p.history
    { p with current := max p.current r.1, longest := max p.longest r.2 }
  | .del d =>
    if d ∈ p.history then
      let h := removeDay d p.history
      let r := calculate_user_streak h
      { history := h, current := r.1, longest := max p.longest r.2 }
    else p
  | .bulk =>
    let r := calculate_user_streak p.history
    { p with current := max p.current r.1, longest := max p.longest r.2 }

/-- A whole sequence of completion-day writes. -/
def applyOps (p : Profile) (ops : List CompletionOp) : Profile :=
  ops.foldl applyOp p

/-! ### Part 2 — adhan notification scheduler -/

/-- The five canonical prayer slots (`PrayerKey` in adhanScheduler.ts). -/
inductive PrayerKey
  | fajr
  | dhuhr
  | asr
  | maghrib
  | isha
deriving Repr, DecidableEq

/-- The `data` payload carried by a scheduled notification:
`{type: "prayer", prayer: key}`, `{type: "test", ...}` (from
`scheduleTestAudioNotification`), or `{type: "nudge"}`. -/
inductive NotifPayload
  | prayer (k : PrayerKey)
  | test
  | nudge
deriving Repr, DecidableEq

/-- A locally scheduled notification: its payload and its fire instant
(instants are integers; sound, title and channel configuration are
display-only and carry no scheduling semantics). -/
structure Notif where
  payload : NotifPayload
  fireAt : Int
deriving Repr, DecidableEq

/-- The device store of scheduled local notifications. -/
abbrev NotifState := List Notif

/-- `cancelAllPrayerNotifications` calls
`Notifications.cancelAllScheduledNotificationsAsync()`: it clears every
scheduled notification on the device, whatever its payload. -/
def cancelAllPrayerNotifications (_st : NotifState) : NotifState := []

/-- The iteration order of the selection loop:
`['fajr', 'dhuhr', 'asr', 'maghrib', 'isha']`. -/
def prayerOrder : List PrayerKey := [.fajr, .dhuhr, .asr, .maghrib, .isha]

/-- Position of a key in `prayerOrder`. -/
def prayerIdx : PrayerKey → Nat
  | .fajr => 0
  | .dhuhr => 1
  | .asr => 2
  | .maghrib => 3
  | .isha => 4

/-- The selection loop of `scheduleNextPrayerNotification`: walk
`prayerOrder`, let `t = dayjs(times[key]).add(grace, 'minute')`, and break
on the first key with `t.isAfter(now)` (strict comparison).  Returns the
key together with its grace-adjusted fire instant, or none. -/
def selectNextPrayer (times : PrayerKey → Int) (now grace : Int) :
    Option (PrayerKey × Int) :=
  match prayerOrder.find? (fun k => decide (now < times k + grace)) with
  | some k => some (k, times k + grace)
  | none => none

/-- Embedding of `scheduleNextPrayerNotification`.  `times` stands for
`computeTodayPrayerDates(coords, prefs)`, which is a pure function of the
coordinates, the preference triple and the clock, so identical inputs under
an unchanged clock yield the same `times`.  The side effects on the device
notification store happen in source order: first
`cancelAllPrayerNotifications()`, then at most one
`scheduleNotificationAsync` carrying `{type: 'prayer', prayer: nextKey}`.
Returns the scheduled key (or none) paired with the new store. -/
def scheduleNextPrayerNotification (times : PrayerKey → Int) (now grace : Int)
    (st : NotifState) : Option PrayerKey × NotifState :=
  let next := selectNextPrayer times now grace
  let cleared := cancelAllPrayerNotifications st
  match next with
  | some (k, t) => (some k, cleared ++ [{ payload := .prayer k, fireAt := t }])
  | none => (none, cleared)

/-- Embedding of `scheduleTestAudioNotification`: schedules one notification
with payload `{type: 'test'}` to fire 10 seconds from now, cancelling
nothing. -/
def scheduleTestAudioNotification (now : Int) (st : NotifState) : NotifState :=
  st ++ [{ payload := .test, fireAt := now + 10 }]

/-- Number of prayer-category notifications in the store. -/
def prayerNotifCount (st : NotifState) : Nat :=
  st.countP (fun n => match n.payload with | .prayer _ => true | _ => false)

/-- Whether a notification carries the test payload. -/
def isTestNotif (n : Notif) : Bool :=
  match n.payload with
  | .test => true
  | _ => false

/-! ### Part 3 — buddy links -/

/-- A row of the `buddy_links` table (`init_schema.sql`); UUIDs are
strings, `UNIQUE(user_a, user_b)` is enforced on insert. -/
structure BuddyLink where
  user_a : String
  user_b : String
  created_by : String
  status : String
deriving Repr, DecidableEq

/-- Insert into `buddy_links` under the UNIQUE(user_a, user_b) constraint:
none models the unique-constraint violation (error code 23505). -/
def insertBuddyLink (t : List BuddyLink) (row : BuddyLink) :
    Option (List BuddyLink) :=
  if t.any (fun r => r.user_a = row.user_a ∧ r.user_b = row.user_b) then none
  else some (t ++ [row])

/-- Outcome of `sendInvite` as surfaced to the user. -/
inductive InviteOutcome
  | sent (table : List BuddyLink)
  | inviteExists
  | selfInvite
deriving Repr, DecidableEq

/-- Embedding of `sendInvite` (buddy screen).  The source refuses inviting
yourself (session email equals the target email, hence the same profile id),
computes `[ua, ub] = [me, targetId].sort()` (ascending lexicographic order
on the UUID strings) and inserts `{user_a: ua, user_b: ub, created_by: me,
status: 'pending'}`; an insert error with code '23505' is surfaced as the
already-exists alert. -/
def sendInvite (t : List BuddyLink) (me target : String) : InviteOutcome :=
  if me = target then .selfInvite
  else
    match insertBuddyLink t
      { user_a := if me ≤ target then me else target
        user_b := if me ≤ target then target else me
        created_by := me
        status := "pending" } with
    | none => .inviteExists
    | some t2 => .sent t2

/-- Two rows link the same unordered user pair. -/
def sameUnorderedPair (r s : BuddyLink) : Prop :=
  (r.user_a = s.user_a ∧ r.user_b = s.user_b) ∨
    (r.user_a = s.user_b ∧ r.user_b = s.user_a)

/-- A concrete prayer-time table (minutes since midnight):
08:00, 12:30, 16:00, 19:00, 20:30. -/
def sampleTimes : PrayerKey → Int
  | .fajr => 480
  | .dhuhr => 750
  | .asr => 960
  | .maghrib => 1140
  | .isha => 1230

/-! ### Theorems -/

/-- C10: for a user with an empty completion-day history `calculate_user_streak`
returns `current_streak = 0` and `longest_streak = 0`. -/
theorem empty_history_zero_streaks : calculate_user_streak [] = (0, 0) := rfl

/-- C1: every call to `scheduleNextPrayerNotification` leaves at most one
prayer-category notification in the device store, whatever the store held
before (so any back-to-back sequence of calls leaves at most one
outstanding), and a second call with identical times, clock and grace
returns the same key and reproduces the same store. -/
theorem schedule_next_at_most_one_and_idempotent
    (times : PrayerKey → Int) (now grace : Int) (st : NotifState) :
    prayerNotifCount (scheduleNextPrayerNotification times now grace st).2 ≤ 1 ∧
    scheduleNextPrayerNotification times now grace
        (scheduleNextPrayerNotification times now grace st).2 =
      scheduleNextPrayerNotification times now grace st := by
  unfold scheduleNextPrayerNotification cancelAllPrayerNotifications
  cases hsel : selectNextPrayer times now grace with
  | none => simp [prayerNotifCount]
  | some kt => simp [prayerNotifCount, List.countP, List.countP.go]

/-- C6: when every grace-adjusted prayer instant of today is at or before
`now`, `scheduleNextPrayerNotification` schedules nothing and returns none
(the store is left cleared, with no rollover to tomorrow). -/
theorem schedule_next_none_when_day_exhausted
    (times : PrayerKey → Int) (now grace : Int) (st : NotifState)
    (h : ∀ k, times k + grace ≤ now) :
    scheduleNextPrayerNotification times now grace st = (none, []) := by
  have hsel : selectNextPrayer times now grace = none := by
    unfold selectNextPrayer
    have hfind : prayerOrder.find? (fun k => decide (now < times k + grace)) = none := by
      rw [List.find?_eq_none]
      intro k _
      simp only [decide_eq_true_eq, not_lt]
      exact h k
    rw [hfind]
  unfold scheduleNextPrayerNotification cancelAllPrayerNotifications
  rw [hsel]

/-- C9: the cancellation step clears every scheduled notification regardless
of payload type, so a pending test notification (scheduled by
`scheduleTestAudioNotification`) does not survive a subsequent
`scheduleNextPrayerNotification` call. -/
theorem cancel_step_clears_non_prayer_notifications
    (st : NotifState) (times : PrayerKey → Int) (now0 now2 grace : Int) :
    cancelAllPrayerNotifications (scheduleTestAudioNotification now0 st) = [] ∧
    ((scheduleNextPrayerNotification times now2 grace
        (scheduleTestAudioNotification now0 st)).2.filter isTestNotif) = [] := by
  refine ⟨rfl, ?_⟩
  unfold scheduleNextPrayerNotification cancelAllPrayerNotifications
  cases hsel : selectNextPrayer times now2 grace with
  | none => rfl
  | some kt => simp [isTestNotif]

/-- C4: along any sequence of completion-day inserts, updates, deletes and
bulk recomputations, the stored `longest_streak` never drops below its
previously stored value, and each recomputation writes it as
`GREATEST(stored, computed)`. -/
theorem longest_streak_monotone_ratchet (p : Profile) (ops : List CompletionOp) :
    p.longest ≤ (applyOps p ops).longest ∧
    (∀ d, d ∉ p.history →
      (applyOp p (.ins d)).longest
        = max p.longest (calculate_user_streak (insertDay d p.history)).2) ∧
    (∀ d, d ∈ p.history →
      (applyOp p (.del d)).longest
        = max p.longest (calculate_user_streak (removeDay d p.history)).2) ∧
    (applyOp p .upd).longest = max p.longest (calculate_user_streak p.history).2 ∧
    (applyOp p .bulk).longest = max p.longest (calculate_user_streak p.history).2 := by
  refine ⟨?_, ?_, ?_, ?_, ?_⟩
  · induction ops generalizing p with
    | nil => exact le_refl _
    | cons op ops ih =>
      have hstep : p.longest ≤ (applyOp p op).longest := by
        cases op with
        | ins d =>
          by_cases hd : d ∈ p.history
          · simp [applyOp, hd]
          · simp [applyOp, hd]
        | upd => simp [applyOp]
        | del d =>
          by_cases hd : d ∈ p.history
          · simp [applyOp, hd]
          · simp [applyOp, hd]
        | bulk => simp [applyOp]
      exact le_trans hstep (ih (applyOp p op))
  · intro d hd
    simp [applyOp, hd]
  · intro d hd
    simp [applyOp, hd]
  · rfl
  · rfl

/-- Witness for C4 at a concrete profile and operation sequence. -/
theorem longest_streak_monotone_ratchet_witness :
    ({ history := [5], current := 1, longest := 1 } : Profile).longest
        ≤ (applyOps { history := [5], current := 1, longest := 1 } [.ins 7, .del 5]).longest ∧
    (applyOp { history := [5], current := 1, longest := 1 } (.ins 7)).longest
        = max 1 (calculate_user_streak (insertDay 7 [5])).2 ∧
    (applyOp { history := [5], current := 1, longest := 1 } (.del 5)).longest
        = max 1 (calculate_user_streak (removeDay 5 [5])).2 :=
  ⟨(longest_streak_monotone_ratchet ⟨[5], 1, 1⟩ [.ins 7, .del 5]).1,
   (longest_streak_monotone_ratchet ⟨[5], 1, 1⟩ []).2.1 7 (by decide),
   (longest_streak_monotone_ratchet ⟨[5], 1, 1⟩ []).2.2.1 5 (by decide)⟩

/-- C2 counterexample: with history `[D, D-1, D-2, D-4]` at `D = 10` the
claimed computed `currentStreak = 3` is false: `calculate_user_streak`
returns `(0, 3)`, because at the first gap `prev_date` is `D-2`, which
differs from `MAX(day) = D`, so `current_count` is reset to 0. -/
theorem streak_gap_counterexample :
    (calculate_user_streak [10, 9, 8]).1 = 3 ∧
    (calculate_user_streak [10, 9, 8, 6]).1 ≠ 3 ∧
    calculate_user_streak [10, 9, 8, 6] = (0, 3) := by decide

/-- C2 amended: history `[D, D-1, D-2]` yields `(current, longest) = (3, 3)`;
after inserting `D-4` the calculation itself returns `current = 0` and
`longest = 3`, and only the stored `current_streak` remains 3 — with stored
`longest_streak` at least 3 — because the insert trigger writes
`GREATEST(stored, computed)`. -/
theorem streak_gap_amended (D : Int) :
    calculate_user_streak [D, D - 1, D - 2] = (3, 3) ∧
    calculate_user_streak [D, D - 1, D - 2, D - 4] = (0, 3) ∧
    (applyOp { history := [D, D - 1, D - 2], current := 3, longest := 3 }
      (.ins (D - 4))).current = 3 ∧
    3 ≤ (applyOp { history := [D, D - 1, D - 2], current := 3, longest := 3 }
      (.ins (D - 4))).longest := by
  have h2 : ((D - 2 : Int) = D - 1 - 1) := by ring
  have h4 : ((D - 4 : Int) ≠ D - 1 - 1 - 1) := by omega
  have h5 : ((D - 1 - 1 : Int) ≠ D) := by omega
  have hc3 : calculate_user_streak [D, D - 1, D - 2] = (3, 3) := by
    simp only [calculate_user_streak, List.foldl, List.headD, streakStep]
    norm_num [h2]
  have hc4 : calculate_user_streak [D, D - 1, D - 2, D - 4] = (0, 3) := by
    simp only [calculate_user_streak, List.foldl, List.headD, streakStep]
    norm_num [h2, h4, h5]
  have hmem : (D - 4) ∉ ([D, D - 1, D - 2] : List Int) := by
    simp
  have hins : insertDay (D - 4) [D, D - 1, D - 2] = [D, D - 1, D - 2, D - 4] := by
    simp only [insertDay]
    split_ifs <;> first | rfl | omega
  refine ⟨hc3, hc4, ?_, ?_⟩ <;> simp [applyOp, hmem, hins, hc4]

/-- C3 counterexample: from stored state `(current, longest) = (3, 3)` with
history `[10, 9, 8]`, deleting day 8 recomputes `(2, 2)` and the DELETE
branch of `trigger_update_streak` writes `current_streak = 2` directly —
a decrease, and not the claimed `GREATEST(3, 2) = 3`. -/
theorem delete_writeback_counterexample :
    (applyOp { history := [10, 9, 8], current := 3, longest := 3 }
      (.del 8)).current = 2 ∧
    (2 : Nat) < 3 ∧
    max 3 (calculate_user_streak (removeDay 8 [10, 9, 8])).1 = 3 := by decide

/-- C3 amended: INSERT and UPDATE recomputations write the stored
`current_streak` as `GREATEST(stored, computed)`, but a DELETE recomputation
writes the computed value directly, so a deletion can decrease the stored
`current_streak`. -/
theorem current_streak_writeback (p : Profile) (d : Int) :
    (d ∉ p.history →
      (applyOp p (.ins d)).current
        = max p.current (calculate_user_streak (insertDay d p.history)).1) ∧
    (applyOp p .upd).current = max p.current (calculate_user_streak p.history).1 ∧
    (d ∈ p.history →
      (applyOp p (.del d)).current
        = (calculate_user_streak (removeDay d p.history)).1) := by
  refine ⟨?_, rfl, ?_⟩ <;> intro hd <;> simp [applyOp, hd]

/-- Witness for C3 amended at a concrete profile and day. -/
theorem current_streak_writeback_witness :
    (applyOp { history := [5], current := 1, longest := 1 } (.ins 7)).current
        = max 1 (calculate_user_streak (insertDay 7 [5])).1 ∧
    (applyOp { history := [5], current := 1, longest := 1 } (.del 5)).current
        = (calculate_user_streak (removeDay 5 [5])).1 :=
  ⟨(current_streak_writeback ⟨[5], 1, 1⟩ 7).1 (by decide),
   (current_streak_writeback ⟨[5], 1, 1⟩ 5).2.2 (by decide)⟩

/-- C5: the selection loop scans fajr, dhuhr, asr, maghrib, isha in order
and returns the first prayer whose grace-adjusted instant is strictly after
`now`; the returned instant is strictly after `now` (a prayer exactly at
`now` counts as already due) and every earlier prayer in the canonical
order has a grace-adjusted instant at or before `now`. -/
theorem select_next_prayer_first_upcoming (times : PrayerKey → Int) (now grace : Int)
    (k : PrayerKey) (t : Int)
    (h : selectNextPrayer times now grace = some (k, t)) :
    now < t ∧ t = times k + grace ∧
      ∀ k2, prayerIdx k2 < prayerIdx k → times k2 + grace ≤ now := by
  unfold selectNextPrayer prayerOrder at h
  by_cases h1 : now < times .fajr + grace
  · simp [List.find?, h1] at h
    obtain ⟨hk, ht⟩ := h
    subst hk
    subst ht
    refine ⟨h1, rfl, ?_⟩
    intro k2 hk2
    exact absurd hk2 (by cases k2 <;> simp [prayerIdx])
  · by_cases h2 : now < times .dhuhr + grace
    · simp [List.find?, h1, h2] at h
      obtain ⟨hk, ht⟩ := h
      subst hk
      subst ht
      refine ⟨h2, rfl, ?_⟩
      intro k2 hk2
      cases k2 <;> simp [prayerIdx] at hk2
      all_goals omega
    · by_cases h3 : now < times .asr + grace
      · simp [List.find?, h1, h2, h3] at h
        obtain ⟨hk, ht⟩ := h
        subst hk
        subst ht
        refine ⟨h3, rfl, ?_⟩
        intro k2 hk2
        cases k2 <;> simp [prayerIdx] at hk2
        all_goals omega
      · by_cases h4 : now < times .maghrib + grace
        · simp [List.find?, h1, h2, h3, h4] at h
          obtain ⟨hk, ht⟩ := h
          subst hk
          subst ht
          refine ⟨h4, rfl, ?_⟩
          intro k2 hk2
          cases k2 <;> simp [prayerIdx] at hk2
          all_goals omega
        · by_cases h5 : now < times .isha + grace
          · simp [List.find?, h1, h2, h3, h4, h5] at h
            obtain ⟨hk, ht⟩ := h
            subst hk
            subst ht
            refine ⟨h5, rfl, ?_⟩
            intro k2 hk2
            cases k2 <;> simp [prayerIdx] at hk2
            all_goals omega
          · simp [List.find?, h1, h2, h3, h4, h5] at h

/-- Witness for C5: with today's times 08:00, 12:30, 16:00, 19:00, 20:30,
`now` = 13:00 and zero grace, the selection returns Asr at 16:00. -/
theorem select_next_prayer_first_upcoming_witness :
    (780 : Int) < 960 ∧ (960 : Int) = sampleTimes .asr + 0 ∧
      ∀ k2, prayerIdx k2 < prayerIdx .asr → sampleTimes k2 + 0 ≤ 780 :=
  select_next_prayer_first_upcoming sampleTimes 780 0 .asr 960 (by decide)

/-- Witness for C6: with the sample times and `now` = 21:00 (after Isha),
nothing is scheduled and none is returned. -/
theorem schedule_next_none_when_day_exhausted_witness :
    scheduleNextPrayerNotification sampleTimes 1260 0
      [{ payload := .test, fireAt := 5 }] = (none, []) :=
  schedule_next_none_when_day_exhausted sampleTimes 1260 0
    [{ payload := .test, fireAt := 5 }] (by intro k; cases k <;> decide)

/-- C8: for distinct users A and B, a successful invite stores the pair in
canonical sorted order (user_a = min, user_b = max of the two ids); the
reverse invite B to A is then rejected by the UNIQUE(user_a, user_b)
constraint (code 23505, surfaced as the already-exists alert); canonicity
and at-most-one-link-per-unordered-pair are preserved. -/
theorem buddy_invite_canonical_pair (t : List BuddyLink) (A B : String)
    (hne : A ≠ B)
    (hcanon : ∀ r ∈ t, r.user_a ≤ r.user_b)
    (t2 : List BuddyLink) (hsent : sendInvite t A B = .sent t2) :
    t2 = t ++ [{ user_a := min A B, user_b := max A B, created_by := A,
                 status := "pending" }] ∧
    sendInvite t2 B A = .inviteExists ∧
    (∀ r ∈ t2, r.user_a ≤ r.user_b) ∧
    (t.Pairwise (fun r s => ¬ sameUnorderedPair r s) →
      t2.Pairwise (fun r s => ¬ sameUnorderedPair r s)) := by
  rcases le_total A B with hab | hba
  · have hmin : min A B = A := min_eq_left hab
    have hmax : max A B = B := max_eq_right hab
    have hnotba : ¬ (B ≤ A) := fun hle => hne (le_antisymm hab hle)
    rw [hmin, hmax]
    unfold sendInvite insertBuddyLink at hsent
    rw [if_neg hne, if_pos hab, if_pos hab] at hsent
    by_cases hany : (t.any fun r => decide (r.user_a = A ∧ r.user_b = B)) = true
    · rw [if_pos hany] at hsent
      exact absurd hsent (by simp)
    · rw [if_neg hany] at hsent
      have hnot : ∀ r ∈ t, ¬ (r.user_a = A ∧ r.user_b = B) := by
        simpa using hany
      simp only [InviteOutcome.sent.injEq] at hsent
      subst hsent
      refine ⟨rfl, ?_, ?_, ?_⟩
      · unfold sendInvite insertBuddyLink
        rw [if_neg (Ne.symm hne), if_neg hnotba, if_neg hnotba]
        have hfound : ((t ++ [({ user_a := A, user_b := B, created_by := A, status := "pending" } : BuddyLink)]).any fun r => decide (r.user_a = A ∧ r.user_b = B)) = true := by
          simp [List.any_append]
        rw [if_pos hfound]
      · intro r hr
        rcases List.mem_append.mp hr with hmem | hmem
        · exact hcanon r hmem
        · simp at hmem
          subst hmem
          exact hab
      · intro hpw
        rw [List.pairwise_append]
        refine ⟨hpw, List.pairwise_singleton _ _, ?_⟩
        intro a ha b hb
        simp only [List.mem_singleton] at hb
        subst hb
        intro hsame
        rcases hsame with ⟨h1, h2⟩ | ⟨h1, h2⟩
        · exact hnot a ha ⟨h1, h2⟩
        · have hle : a.user_a ≤ a.user_b := hcanon a ha
          simp only at h1 h2
          rw [h1, h2] at hle
          exact hnotba hle
  · have hmin : min A B = B := min_eq_right hba
    have hmax : max A B = A := max_eq_left hba
    have hnotab : ¬ (A ≤ B) := fun hle => hne (le_antisymm hle hba)
    rw [hmin, hmax]
    unfold sendInvite insertBuddyLink at hsent
    rw [if_neg hne, if_neg hnotab, if_neg hnotab] at hsent
    by_cases hany : (t.any fun r => decide (r.user_a = B ∧ r.user_b = A)) = true
    · rw [if_pos hany] at hsent
      exact absurd hsent (by simp)
    · rw [if_neg hany] at hsent
      have hnot : ∀ r ∈ t, ¬ (r.user_a = B ∧ r.user_b = A) := by
        simpa using hany
      simp only [InviteOutcome.sent.injEq] at hsent
      subst hsent
      refine ⟨rfl, ?_, ?_, ?_⟩
      · unfold sendInvite insertBuddyLink
        rw [if_neg (Ne.symm hne), if_pos hba, if_pos hba]
        have hfound : ((t ++ [({ user_a := B, user_b := A, created_by := A, status := "pending" } : BuddyLink)]).any fun r => decide (r.user_a = B ∧ r.user_b = A)) = true := by
          simp [List.any_append]
        rw [if_pos hfound]
      · intro r hr
        rcases List.mem_append.mp hr with hmem | hmem
        · exact hcanon r hmem
        · simp at hmem
          subst hmem
          exact hba
      · intro hpw
        rw [List.pairwise_append]
        refine ⟨hpw, List.pairwise_singleton _ _, ?_⟩
        intro a ha b hb
        simp only [List.mem_singleton] at hb
        subst hb
        intro hsame
        rcases hsame with ⟨h1, h2⟩ | ⟨h1, h2⟩
        · exact hnot a ha ⟨h1, h2⟩
        · have hle : a.user_a ≤ a.user_b := hcanon a ha
          simp only at h1 h2
          rw [h1, h2] at hle
          exact hnotab hle


/-- Witness for C8: inviting between users "a" and "b" on an empty table,
then the reverse invite. -/
theorem buddy_invite_canonical_pair_witness :
    ([{ user_a := "a", user_b := "b", created_by := "a", status := "pending" }] : List BuddyLink)
        = [] ++ [{ user_a := min "a" "b", user_b := max "a" "b", created_by := "a",
                   status := "pending" }] ∧
    sendInvite [{ user_a := "a", user_b := "b", created_by := "a", status := "pending" }]
        "b" "a" = .inviteExists ∧
    (∀ r ∈ ([{ user_a := "a", user_b := "b", created_by := "a", status := "pending" }] : List BuddyLink),
        r.user_a ≤ r.user_b) ∧
    (([] : List BuddyLink).Pairwise (fun r s => ¬ sameUnorderedPair r s) →
      ([{ user_a := "a", user_b := "b", created_by := "a", status := "pending" }] : List BuddyLink).Pairwise
        (fun r s => ¬ sameUnorderedPair r s)) :=
  buddy_invite_canonical_pair [] "a" "b" (by decide) (by simp)
    [{ user_a := "a", user_b := "b", created_by := "a", status := "pending" }]
    (by
      have hab : ("a" : String) ≤ "b" := by
        rw [String.le_iff_toList_le]
        decide
      simp [sendInvite, insertBuddyLink, hab])

end PrayerApp
